import Mathlib

/-!
Verification of the podcast-processing pipeline.

Shallow embedding of the repository's core logic:
- the Convex mutations over the `projects` document (`src/convex/projects.ts`),
- the six AI generation tasks (`src/inngest/steps/ai-generation/*`),
- the transcription step's error handling
  (`transcribeWithAssemblyAI`, `src/inngest/steps/ai-generation/youtube-timestamps.ts`,
  third document, lines 263-385),
- the orchestrator (`podcastProcessor`, `src/inngest/functions/podcast-processor.ts`,
  first document, lines 42-201), and
- the realtime subscription-token endpoint (`src/app/api/realtime/token/route.ts`).

JavaScript strings are modelled as `String` where only whole values matter and as
`List Char` (UTF-16 code units) where the code indexes into them (the Twitter
length cap).  External calls (OpenAI) are modelled by an input describing the
settled outcome of the call; timestamps (`Date.now()`) are an explicit `now`
argument.
-/

set_option maxRecDepth 4000

namespace Podcast

/-! ## Data model (`src/unnamed/part_018` schema, `src/convex/projects.ts`) -/

/-- Overall project status union:
`"uploaded" | "processing" | "completed" | "failed"`. -/
inductive RunStatus
  | uploaded
  | processing
  | completed
  | failed
deriving DecidableEq

/-- Per-job status union:
`"pending" | "running" | "completed" | "failed" | "skipped"`. -/
inductive JobState
  | pending
  | running
  | completed
  | failed
  | skipped
deriving DecidableEq

/-- Keys of the `jobStatus` object.  Union of the keys appearing across the
schema versions and the keys the orchestrator writes
(`transcription`, `contentGeneration`). -/
inductive JobKey
  | audioExtraction
  | transcription
  | contentGeneration
  | keyMoments
  | summary
  | captions
  | social
  | titles
  | hashtags
  | youtubeTimestamps
deriving DecidableEq

/-- One AssemblyAI auto-chapter: `start` (milliseconds), `headline`,
`summary`, `gist`. -/
structure Chapter where
  start : Nat
  headline : String
  chSummary : String
  gist : String
deriving DecidableEq

/-- The transcript passed to the generation tasks (`TranscriptWithExtras`):
the fields the tasks read are the full `text` and the `chapters` list.
An absent chapters field is normalised to `[]` by the tasks
(`transcript.chapters || []`). -/
structure Transcript where
  text : String
  chapters : List Chapter
deriving DecidableEq

/-- A key moment (`key-moments.ts`): display time, seconds (exact JS division
`chapter.start / 1000`, hence rational), headline, summary. -/
structure KeyMoment where
  time : String
  timestamp : Rat
  text : String
  description : String
deriving DecidableEq

/-- The summary artifact (`summarySchema`). -/
structure Summary where
  full : String
  bullets : List String
  insights : List String
  tldr : String
deriving DecidableEq

/-- The social-posts artifact (`socialPostsSchema`).  Fields are strings as
code-unit lists because the Twitter field is indexed by length. -/
structure SocialPosts where
  twitter : List Char
  linkedin : List Char
  instagram : List Char
  tiktok : List Char
  youtube : List Char
  facebook : List Char
deriving DecidableEq

/-- The titles artifact (`titlesSchema`). -/
structure Titles where
  youtubeShort : List String
  youtubeLong : List String
  podcastTitles : List String
  seoKeywords : List String
deriving DecidableEq

/-- The hashtags artifact (`hashtagsSchema`). -/
structure Hashtags where
  youtube : List String
  instagram : List String
  tiktok : List String
  linkedin : List String
  twitter : List String
deriving DecidableEq

/-- One YouTube timestamp entry: formatted timestamp plus description. -/
structure YtStamp where
  timestamp : String
  description : String
deriving DecidableEq

/-- The persisted error object written by `recordError`:
`{ message, step, timestamp, details }`. -/
structure ErrRec where
  message : String
  step : String
  timestamp : Nat
  details : Option String
deriving DecidableEq

/-- The `projects` document.  `jobStatus` is the JS object keyed by `JobKey`;
artifact fields are optional and absent (`none`) until written.
`jobErrors` is the per-task error map persisted by `saveJobErrors`. -/
structure Project where
  userId : String
  inputUrl : String
  fileName : String
  fileSize : Nat
  fileFormat : String
  mimeType : String
  status : RunStatus
  jobStatus : JobKey → JobState
  transcript : Option Transcript
  keyMoments : Option (List KeyMoment)
  summary : Option Summary
  socialPosts : Option SocialPosts
  titles : Option Titles
  hashtags : Option Hashtags
  youtubeTimestamps : Option (List YtStamp)
  jobErrors : Option (List (String × String))
  error : Option ErrRec
  createdAt : Nat
  updatedAt : Nat
  completedAt : Option Nat

/-! ## Convex mutations (`src/convex/projects.ts`, first document) -/

/-- `updateProjectStatus` (lines 54-77): patch `status` and `updatedAt`;
when the new status is `"completed"`, also set `completedAt`. -/
def updateProjectStatus (p : Project) (status : RunStatus) (now : Nat) : Project :=
  { p with
    status := status
    updatedAt := now
    completedAt := if status = RunStatus.completed then some now else p.completedAt }

/-- `updateJobStatus` (lines 82-116): merge the named job's new state into the
`jobStatus` object (`{ ...project.jobStatus, [job]: status }`), set `updatedAt`. -/
def updateJobStatus (p : Project) (job : JobKey) (status : JobState) (now : Nat) : Project :=
  { p with
    jobStatus := fun k => if k = job then status else p.jobStatus k
    updatedAt := now }

/-- `saveTranscript` (lines 121-151): patch `transcript` and `updatedAt`. -/
def saveTranscript (p : Project) (t : Transcript) (now : Nat) : Project :=
  { p with transcript := some t, updatedAt := now }

/-- `recordError` (lines 262-281): set `status` to `"failed"`, store
`{ message, step, timestamp, details }`, set `updatedAt`. -/
def recordError (p : Project) (message stepName : String)
    (details : Option String) (now : Nat) : Project :=
  { p with
    status := RunStatus.failed
    error := some { message := message, step := stepName, timestamp := now, details := details }
    updatedAt := now }

/-- The optional artifact arguments of `saveGeneratedContent`
(field list of the version that covers all six tasks,
`src/convex/projects.ts` second document, lines 659-726). -/
structure ContentArgs where
  keyMoments : Option (List KeyMoment)
  summary : Option Summary
  socialPosts : Option SocialPosts
  titles : Option Titles
  hashtags : Option Hashtags
  youtubeTimestamps : Option (List YtStamp)

/-- Field-level merge used by `ctx.db.patch`: a provided argument overwrites
the stored field, an omitted argument leaves it untouched. -/
def mergeField {α : Type} (arg cur : Option α) : Option α :=
  match arg with
  | some v => some v
  | none => cur

/-- `saveGeneratedContent` (`ctx.db.patch(projectId, { ...content, updatedAt })`):
only the provided artifact fields are written; everything else is preserved. -/
def saveGeneratedContent (p : Project) (c : ContentArgs) (now : Nat) : Project :=
  { p with
    keyMoments := mergeField c.keyMoments p.keyMoments
    summary := mergeField c.summary p.summary
    socialPosts := mergeField c.socialPosts p.socialPosts
    titles := mergeField c.titles p.titles
    hashtags := mergeField c.hashtags p.hashtags
    youtubeTimestamps := mergeField c.youtubeTimestamps p.youtubeTimestamps
    updatedAt := now }

/-- Modelled from the spec: the `saveJobErrors` mutation invoked by the
orchestrator (`podcast-processor.ts` line 148) is not among the sources;
spec section 4.5 requires persisting "a map of task-name→TaskError for every
failed task" onto the run record.  Modelled as patching the error map and
`updatedAt`. -/
def saveJobErrors (p : Project) (errs : List (String × String)) (now : Nat) : Project :=
  { p with jobErrors := some errs, updatedAt := now }

/-! ## Timestamp formatting -/

/-- `String(n).padStart(2, "0")`. -/
def pad2 (n : Nat) : String :=
  if n < 10 then "0" ++ toString n else toString n

/-- `formatYouTubeTimestamp` (`src/unnamed/part_004`): `MM:SS` under one hour,
`H:MM:SS` above (no leading zero on hours).  The generation steps call
`lib/format.formatTimestamp`, whose file is not among the sources; this
in-repo formatter stands in for it.  No claim depends on the rendered string. -/
def formatYouTubeTimestamp (seconds : Nat) : String :=
  let hours := seconds / 3600
  let minutes := (seconds % 3600) / 60
  let secs := seconds % 60
  if 0 < hours then
    toString hours ++ ":" ++ pad2 minutes ++ ":" ++ pad2 secs
  else
    pad2 minutes ++ ":" ++ pad2 secs

/-! ## Generation tasks (`src/inngest/steps/ai-generation/*`)

Each task makes one external model call per attempt.  The settled outcome of
that call, as the task observes it, is an input:

- `throwErr`: the call itself raised (after the step executor's retries);
- `noContent`: the response arrived but `choices[0]?.message?.content` was
  null/undefined/empty;
- `content none`: a content string arrived but `JSON.parse`/schema validation
  raised on it (malformed output);
- `content (some a)`: the content parsed and validated to `a`.
-/

inductive ModelCall (α : Type)
  | throwErr (msg : String)
  | noContent
  | content (parsed : Option α)

/-- `generateKeyMoments` (`key-moments.ts` lines 43-64): pure transformation of
the AssemblyAI chapters; no model call, no failure path. -/
def generateKeyMoments (t : Transcript) : List KeyMoment :=
  t.chapters.map fun ch =>
    { time := formatYouTubeTimestamp (ch.start / 1000)
      timestamp := (ch.start : Rat) / 1000
      text := ch.headline
      description := ch.chSummary }

/-- The default summary used when the model response has no content
(`summary.ts` lines 80-85). -/
def summaryNoContentFallback (t : Transcript) : Summary :=
  { full := t.text.take 500
    bullets := ["Full transcript available"]
    insights := ["See transcript"]
    tldr := t.text.take 200 }

/-- The summary returned from the catch branch (`summary.ts` lines 88-97). -/
def summaryErrFallback : Summary :=
  { full := "⚠️ Error generating summary with GPT-4. Please check logs or try again."
    bullets := ["Summary generation failed - see full transcript"]
    insights := ["Error occurred during AI generation"]
    tldr := "Summary generation failed" }

/-- `generateSummary` (`summary.ts` lines 52-98).  A schema-validation failure
raises inside the `try` and is absorbed by the same catch as a failed call. -/
def generateSummary (mc : ModelCall Summary) (t : Transcript) : Summary :=
  match mc with
  | .throwErr _ => summaryErrFallback
  | .noContent => summaryNoContentFallback t
  | .content none => summaryErrFallback
  | .content (some s) => s

/-- The fixed truncation marker appended by the Twitter length cap (`"..."`). -/
def truncMarker : List Char := ['.', '.', '.']

/-- The Twitter safety cap (`social-posts.ts` lines 110-116): posts over 280
code units become `substring(0, 277) + "..."`. -/
def capTwitter (s : List Char) : List Char :=
  if 280 < s.length then s.take 277 ++ truncMarker else s

/-- Apply the Twitter cap to a social-posts object before returning it. -/
def applyTwitterCap (sp : SocialPosts) : SocialPosts :=
  { sp with twitter := capTwitter sp.twitter }

/-- The default posts used when the model response has no content
(`social-posts.ts` lines 101-108). -/
def socialNoContentFallback : SocialPosts :=
  { twitter := "New podcast episode!".toList
    linkedin := "Check out our latest podcast.".toList
    instagram := "New episode out now! 🎙️".toList
    tiktok := "New podcast!".toList
    youtube := "Watch our latest episode.".toList
    facebook := "New podcast available!".toList }

/-- The posts returned from the catch branch (`social-posts.ts` lines 119-130). -/
def socialErrFallback : SocialPosts :=
  { twitter := "⚠️ Error generating social post. Check logs for details.".toList
    linkedin := "⚠️ Error generating social post. Check logs for details.".toList
    instagram := "⚠️ Error generating social post. Check logs for details.".toList
    tiktok := "⚠️ Error generating social post. Check logs for details.".toList
    youtube := "⚠️ Error generating social post. Check logs for details.".toList
    facebook := "⚠️ Error generating social post. Check logs for details.".toList }

/-- `generateSocialPosts` (`social-posts.ts` lines 73-131).  Both the parsed
and the no-content result flow through the Twitter cap; the catch branch
returns its fallback directly. -/
def generateSocialPosts (mc : ModelCall SocialPosts) (_t : Transcript) : SocialPosts :=
  match mc with
  | .throwErr _ => socialErrFallback
  | .noContent => applyTwitterCap socialNoContentFallback
  | .content none => socialErrFallback
  | .content (some sp) => applyTwitterCap sp

/-- The default titles used when the model response has no content
(`src/unnamed/part_001`, matching `titles.ts` lines 97-102). -/
def titlesNoContentFallback : Titles :=
  { youtubeShort := ["Podcast Episode"]
    youtubeLong := ["Podcast Episode - Full Discussion"]
    podcastTitles := ["New Episode"]
    seoKeywords := ["podcast"] }

/-- The titles returned from the catch branch (`titles.ts` lines 113-128). -/
def titlesErrFallback : Titles :=
  { youtubeShort := ["⚠️ Title generation failed"]
    youtubeLong := ["⚠️ Title generation failed - check logs"]
    podcastTitles := ["⚠️ Title generation failed"]
    seoKeywords := ["error"] }

/-- `generateTitles` (step version, `src/unnamed/part_001`; same catch/fallback
structure as `titles.ts` lines 63-129). -/
def generateTitles (mc : ModelCall Titles) (_t : Transcript) : Titles :=
  match mc with
  | .throwErr _ => titlesErrFallback
  | .noContent => titlesNoContentFallback
  | .content none => titlesErrFallback
  | .content (some ti) => ti

/-- The default hashtags used when the model response has no content
(`titles.ts` second document, lines 214-220). -/
def hashtagsNoContentFallback : Hashtags :=
  { youtube := ["#Podcast"]
    instagram := ["#Podcast", "#Content"]
    tiktok := ["#Podcast"]
    linkedin := ["#Podcast"]
    twitter := ["#Podcast"] }

/-- The hashtags returned from the catch branch (`titles.ts` lines 223-233). -/
def hashtagsErrFallback : Hashtags :=
  { youtube := ["⚠️ Hashtag generation failed"]
    instagram := ["⚠️ Hashtag generation failed"]
    tiktok := ["⚠️ Hashtag generation failed"]
    linkedin := ["⚠️ Hashtag generation failed"]
    twitter := ["⚠️ Hashtag generation failed"] }

/-- `generateHashtags` (`titles.ts` second document, lines 186-234). -/
def generateHashtags (mc : ModelCall Hashtags) (_t : Transcript) : Hashtags :=
  match mc with
  | .throwErr _ => hashtagsErrFallback
  | .noContent => hashtagsNoContentFallback
  | .content none => hashtagsErrFallback
  | .content (some h) => h

/-! ## YouTube timestamps (`youtube-timestamps.ts` lines 53-180) -/

/-- One parsed entry of the model's `titles` array: `{ index, title }`. -/
structure AiTitle where
  index : Nat
  title : String
deriving DecidableEq

/-- The chapter data prepared for the model (`chapterData`, lines 77-83):
index, `Math.floor(chapter.start / 1000)`, headline. -/
structure ChapterRow where
  index : Nat
  timestampSec : Nat
  headline : String
deriving DecidableEq

/-- `chaptersToUse = chapters.slice(0, 100)` mapped to rows with their index. -/
def ytChapterRows (chs : List Chapter) : List ChapterRow :=
  (chs.take 100).enum.map fun pr =>
    { index := pr.1, timestampSec := pr.2.start / 1000, headline := pr.2.headline }

/-- `aiTitle?.title || chapter.headline` (line 162): the AI title of matching
index when present and non-empty, otherwise the AssemblyAI headline. -/
def ytPickTitle (ts : List AiTitle) (row : ChapterRow) : String :=
  match ts.find? (fun a => a.index == row.index) with
  | some a => if a.title = "" then row.headline else a.title
  | none => row.headline

/-- Combine the rows with the AI titles and format (lines 156-175). -/
def ytStampsFrom (chs : List Chapter) (ts : List AiTitle) : List YtStamp :=
  (ytChapterRows chs).map fun row =>
    { timestamp := formatYouTubeTimestamp row.timestampSec
      description := ytPickTitle ts row }

/-- The error thrown when no chapters are available (lines 65-69). -/
def noChaptersMsg : String :=
  "No chapters available from AssemblyAI. Cannot generate YouTube timestamps."

/-- Result of one invocation of the timestamps task: the settled outcome and
whether the external model call was made. -/
structure YtOutcome where
  result : Except String (List YtStamp)
  modelCalled : Bool

/-- `generateYouTubeTimestamps` (lines 53-180).  With no chapters it throws
before the model call.  A missing content string defaults to a literal that
parses to an empty `titles` array, and a `JSON.parse` failure is caught and
leaves `aiTitles` empty (lines 143-153) — both fall back to the AssemblyAI
headlines.  Only a raising model call propagates out. -/
def generateYouTubeTimestamps (t : Transcript) (mc : ModelCall (List AiTitle)) : YtOutcome :=
  if t.chapters.isEmpty then
    { result := Except.error noChaptersMsg, modelCalled := false }
  else
    match mc with
    | .throwErr msg => { result := Except.error msg, modelCalled := true }
    | .noContent => { result := Except.ok (ytStampsFrom t.chapters []), modelCalled := true }
    | .content none => { result := Except.ok (ytStampsFrom t.chapters []), modelCalled := true }
    | .content (some ts) => { result := Except.ok (ytStampsFrom t.chapters ts), modelCalled := true }

/-! ## Orchestrator (`src/inngest/functions/podcast-processor.ts`, lines 42-201)

The six tasks run under `Promise.allSettled`; their settled outcomes are the
`GenResults` input (a rejection's reason is the thrown `Error`'s message).
The transcription step's settled outcome, after the step executor's retries
are exhausted, is the `Except` input. -/

/-- One settled promise: `{ status: "fulfilled", value }` or
`{ status: "rejected", reason }`. -/
inductive Settled (α : Type)
  | fulfilled (val : α)
  | rejected (reason : String)

/-- `value` when fulfilled (the `results[i].status === "fulfilled" ?
results[i].value : undefined` extraction, lines 108-119). -/
def Settled.toOption {α : Type} : Settled α → Option α
  | .fulfilled v => some v
  | .rejected _ => none

/-- The six settled outcomes in the order of the `Promise.allSettled` array. -/
structure GenResults where
  keyMoments : Settled (List KeyMoment)
  summary : Settled Summary
  socialPosts : Settled SocialPosts
  titles : Settled Titles
  hashtags : Settled Hashtags
  youtubeTimestamps : Settled (List YtStamp)

/-- Contribution of one settled result to the `jobErrors` object
(lines 132-143): an entry only when rejected. -/
def errEntry {α : Type} (name : String) : Settled α → List (String × String)
  | .fulfilled _ => []
  | .rejected r => [(name, r)]

/-- The `jobErrors` map in the `generationNames` iteration order
(lines 122-143). -/
def jobErrorsOf (rs : GenResults) : List (String × String) :=
  errEntry "keyMoments" rs.keyMoments ++ errEntry "summary" rs.summary ++
  errEntry "socialPosts" rs.socialPosts ++ errEntry "titles" rs.titles ++
  errEntry "hashtags" rs.hashtags ++ errEntry "youtubeTimestamps" rs.youtubeTimestamps

/-- `saveResultsToConvex` (`youtube-timestamps.ts` second document,
lines 213-244): one `saveGeneratedContent` merge-patch with whatever
succeeded, then `updateProjectStatus` to `"completed"`. -/
def saveResultsToConvex (p : Project) (rs : GenResults) (now : Nat) : Project :=
  let p1 := saveGeneratedContent p
    { keyMoments := rs.keyMoments.toOption
      summary := rs.summary.toOption
      socialPosts := rs.socialPosts.toOption
      titles := rs.titles.toOption
      hashtags := rs.hashtags.toOption
      youtubeTimestamps := rs.youtubeTimestamps.toOption } now
  updateProjectStatus p1 RunStatus.completed now

/-- Result of one whole run of the orchestrator: the final project record,
whether the generation fan-out was reached (`Promise.allSettled` evaluated),
and the error the function re-threw, if any. -/
structure RunOutcome where
  proj : Project
  generationStarted : Bool
  threw : Option String

/-- `podcastProcessor` (lines 52-200).  On transcription failure,
`transcribeWithAssemblyAI`'s catch (`youtube-timestamps.ts` third document,
lines 368-384) marks the job failed, records an error with step
`"transcription"` and re-throws; the orchestrator's own catch (lines 178-199)
then records an error with step `"workflow"` and re-throws, so the generation
fan-out never runs.  On success the transcript is saved, the six settled
results are aggregated, a non-empty `jobErrors` map is persisted, and
`saveResultsToConvex` completes the run.  Repeated job-status writes of the
same value by the step wrapper and the orchestrator are collapsed. -/
def podcastProcessor (p0 : Project) (tr : Except String Transcript)
    (rs : GenResults) (now : Nat) : RunOutcome :=
  let p1 := updateProjectStatus p0 RunStatus.processing now
  let p2 := updateJobStatus p1 JobKey.transcription JobState.running now
  match tr with
  | Except.error msg =>
      let p3 := updateJobStatus p2 JobKey.transcription JobState.failed now
      let p4 := recordError p3 msg "transcription" none now
      let p5 := recordError p4 msg "workflow" (some msg) now
      { proj := p5, generationStarted := false, threw := some msg }
  | Except.ok t =>
      let p3 := saveTranscript p2 t now
      let p4 := updateJobStatus p3 JobKey.transcription JobState.completed now
      let p5 := updateJobStatus p4 JobKey.contentGeneration JobState.running now
      let errs := jobErrorsOf rs
      let p6 := if errs.isEmpty then p5 else saveJobErrors p5 errs now
      let p7 := updateJobStatus p6 JobKey.contentGeneration JobState.completed now
      let p8 := saveResultsToConvex p7 rs now
      { proj := p8, generationStarted := true, threw := none }

/-- The settled outcomes of the model call behind each task that makes one. -/
structure ModelBehaviors where
  summary : ModelCall Summary
  social : ModelCall SocialPosts
  titles : ModelCall Titles
  hashtags : ModelCall Hashtags
  yt : ModelCall (List AiTitle)

/-- The `Promise.allSettled` input built from the actual task functions
(lines 98-105): the four fallback-guarded tasks and `generateKeyMoments`
always fulfill; only `generateYouTubeTimestamps` can reject. -/
def runGenerationTasks (t : Transcript) (mb : ModelBehaviors) : GenResults :=
  { keyMoments := Settled.fulfilled (generateKeyMoments t)
    summary := Settled.fulfilled (generateSummary mb.summary t)
    socialPosts := Settled.fulfilled (generateSocialPosts mb.social t)
    titles := Settled.fulfilled (generateTitles mb.titles t)
    hashtags := Settled.fulfilled (generateHashtags mb.hashtags t)
    youtubeTimestamps :=
      match (generateYouTubeTimestamps t mb.yt).result with
      | Except.ok v => Settled.fulfilled v
      | Except.error e => Settled.rejected e }

/-- The orchestrator composed with the embedded task implementations, for a
run whose transcription succeeded. -/
def podcastProcessorRun (p0 : Project) (t : Transcript) (mb : ModelBehaviors)
    (now : Nat) : RunOutcome :=
  podcastProcessor p0 (Except.ok t) (runGenerationTasks t mb) now

/-! ## Subscription-token endpoint (`src/app/api/realtime/token/route.ts`) -/

/-- The scope baked into a subscription token by `getSubscriptionToken`:
exactly one channel and a topic list. -/
structure TokenScope where
  channel : String
  topics : List String
deriving DecidableEq

/-- Outcome of `withAuth()`: an authenticated Clerk user id, or a thrown
401 response. -/
inductive AuthState
  | unauthenticated
  | signedIn (userId : String)

/-- The four fixed progress topics (`REALTIME_TOPICS`, `src/unnamed/part_000`),
in the order the route requests them (lines 77-83). -/
def realtimeTopics : List String :=
  ["transcriptionStart", "transcriptionDone", "generationStart", "generationDone"]

/-- Channel namespacing (line 76): one channel per project. -/
def projectChannel (projectId : String) : String :=
  "project:" ++ projectId

/-- The route's response: a token, or an error response with a status code. -/
inductive RouteResult
  | ok (tok : TokenScope)
  | err (message : String) (code : Nat)
deriving DecidableEq

/-- `GET /api/realtime/token` (lines 50-107): authenticate, require a
`projectId` query parameter, load the project, require ownership, then issue
a token scoped to that project's channel and the four fixed topics.
`getProject` is the Convex point-read `api.projects.getProject`. -/
def tokenRouteGET (auth : AuthState) (projectIdParam : Option String)
    (getProject : String → Option Project) : RouteResult :=
  match auth with
  | .unauthenticated => RouteResult.err "Unauthorized" 401
  | .signedIn userId =>
    match projectIdParam with
    | none => RouteResult.err "Missing projectId" 400
    | some pid =>
      match getProject pid with
      | none => RouteResult.err "Project not found" 404
      | some proj =>
        if proj.userId = userId then
          RouteResult.ok { channel := projectChannel pid, topics := realtimeTopics }
        else
          RouteResult.err "Forbidden" 403

/-! ## Concrete fixtures -/

/-- A freshly created project (all jobs pending, no artifacts). -/
def sampleProject : Project :=
  { userId := "user_1"
    inputUrl := "https://blob.example/audio.mp3"
    fileName := "episode1.mp3"
    fileSize := 1048576
    fileFormat := "mp3"
    mimeType := "audio/mpeg"
    status := RunStatus.uploaded
    jobStatus := fun _ => JobState.pending
    transcript := none
    keyMoments := none
    summary := none
    socialPosts := none
    titles := none
    hashtags := none
    youtubeTimestamps := none
    jobErrors := none
    error := none
    createdAt := 100
    updatedAt := 100
    completedAt := none }

/-- A transcript with four AssemblyAI chapters. -/
def fourChapterTranscript : Transcript :=
  { text := "welcome to the show"
    chapters :=
      [ { start := 0, headline := "Intro", chSummary := "Welcome", gist := "intro" }
      , { start := 60000, headline := "Topic A", chSummary := "First topic", gist := "a" }
      , { start := 125000, headline := "Topic B", chSummary := "Second topic", gist := "b" }
      , { start := 4000000, headline := "Wrap up", chSummary := "Closing", gist := "end" } ] }

/-- A transcript with no chapters. -/
def noChapterTranscript : Transcript :=
  { text := "short clip", chapters := [] }

/-- Concrete sample artifacts. -/
def sampleSummary : Summary :=
  { full := "full text", bullets := ["b1"], insights := ["i1"], tldr := "tldr" }

def sampleSocialPosts : SocialPosts :=
  { twitter := "short tweet".toList, linkedin := "li".toList, instagram := "ig".toList
    tiktok := "tt".toList, youtube := "yt".toList, facebook := "fb".toList }

def sampleTitles : Titles :=
  { youtubeShort := ["S"], youtubeLong := ["L"], podcastTitles := ["P"], seoKeywords := ["k"] }

def sampleHashtags : Hashtags :=
  { youtube := ["#y"], instagram := ["#i"], tiktok := ["#t"], linkedin := ["#l"], twitter := ["#x"] }

def sampleKeyMoments : List KeyMoment :=
  [{ time := "00:00", timestamp := 0, text := "Intro", description := "Welcome" }]

def sampleYtStamps : List YtStamp :=
  [{ timestamp := "00:00", description := "Intro" }]

/-- Six fulfilled settled results. -/
def allOkResults : GenResults :=
  { keyMoments := Settled.fulfilled sampleKeyMoments
    summary := Settled.fulfilled sampleSummary
    socialPosts := Settled.fulfilled sampleSocialPosts
    titles := Settled.fulfilled sampleTitles
    hashtags := Settled.fulfilled sampleHashtags
    youtubeTimestamps := Settled.fulfilled sampleYtStamps }

/-! ## C1 -/

/-- C1: in every run whose transcription step succeeds, whatever the settled
outcomes of the six generation tasks (any subset of them rejected, from none
to all six), the final project status is `completed` with `completedAt` set,
and is not `failed`. -/
theorem transcription_success_always_completes (p0 : Project) (t : Transcript)
    (rs : GenResults) (now : Nat) :
    (podcastProcessor p0 (Except.ok t) rs now).proj.status = RunStatus.completed ∧
    (podcastProcessor p0 (Except.ok t) rs now).proj.completedAt = some now ∧
    (podcastProcessor p0 (Except.ok t) rs now).proj.status ≠ RunStatus.failed := by
  refine ⟨?_, ?_, ?_⟩ <;>
    simp [podcastProcessor, saveResultsToConvex, updateProjectStatus,
          saveGeneratedContent, updateJobStatus, saveTranscript, saveJobErrors]

/-! ## C2 -/

/-- C2 counterexample: with a failing transcription the run does end `failed`
and no generation task starts, but the finally persisted error's `step` field
is `"workflow"` — the orchestrator's catch overwrites the `"transcription"`
error that the transcription step recorded — so it does not equal
`"transcription"` as claimed. -/
theorem transcription_failure_error_step_is_workflow :
    (podcastProcessor sampleProject (Except.error "connection reset") allOkResults 200).proj.status
        = RunStatus.failed ∧
    (podcastProcessor sampleProject (Except.error "connection reset") allOkResults 200).generationStarted
        = false ∧
    (podcastProcessor sampleProject (Except.error "connection reset") allOkResults 200).proj.error.map
        ErrRec.step = some "workflow" ∧
    (podcastProcessor sampleProject (Except.error "connection reset") allOkResults 200).proj.error.map
        ErrRec.step ≠ some "transcription" := by
  refine ⟨?_, ?_, ?_, ?_⟩ <;>
    simp [podcastProcessor, updateProjectStatus, updateJobStatus, recordError]

/-- C2 amended: for every run in which the transcription step fails after its
retries are exhausted, the generation fan-out is never reached, the run ends
`failed` with the failure's message recorded and the transcription job marked
failed, and the persisted error's `step` field equals `"workflow"` (the
orchestrator's catch overwrites the transcription step's own
`step = "transcription"` record). -/
theorem transcription_failure_halts_generation (p0 : Project) (msg : String)
    (rs : GenResults) (now : Nat) :
    (podcastProcessor p0 (Except.error msg) rs now).generationStarted = false ∧
    (podcastProcessor p0 (Except.error msg) rs now).proj.status = RunStatus.failed ∧
    (podcastProcessor p0 (Except.error msg) rs now).proj.error.map ErrRec.step
        = some "workflow" ∧
    (podcastProcessor p0 (Except.error msg) rs now).proj.error.map ErrRec.message
        = some msg ∧
    (podcastProcessor p0 (Except.error msg) rs now).proj.jobStatus JobKey.transcription
        = JobState.failed ∧
    (podcastProcessor p0 (Except.error msg) rs now).proj.keyMoments = p0.keyMoments ∧
    (podcastProcessor p0 (Except.error msg) rs now).proj.jobErrors = p0.jobErrors := by
  refine ⟨?_, ?_, ?_, ?_, ?_, ?_, ?_⟩ <;>
    simp [podcastProcessor, updateProjectStatus, updateJobStatus, recordError]

/-! ## C5 -/

/-- C5: on a transcript whose chapter list is empty (or absent, which the
task normalises to empty), the timestamps task raises the no-chapters error
immediately and the external model call is never made. -/
theorem yt_no_chapters_never_calls_model (t : Transcript)
    (mc : ModelCall (List AiTitle)) (h : t.chapters = []) :
    (generateYouTubeTimestamps t mc).result = Except.error noChaptersMsg ∧
    (generateYouTubeTimestamps t mc).modelCalled = false := by
  constructor <;> simp [generateYouTubeTimestamps, h]

/-- C5 witness: the empty-chapter transcript with a model stubbed to return
parsed titles still raises and never calls the model. -/
theorem yt_no_chapters_never_calls_model_witness :
    noChapterTranscript.chapters = [] ∧
    ((generateYouTubeTimestamps noChapterTranscript
          (ModelCall.content (some [{ index := 0, title := "T" }]))).result
        = Except.error noChaptersMsg ∧
      (generateYouTubeTimestamps noChapterTranscript
          (ModelCall.content (some [{ index := 0, title := "T" }]))).modelCalled = false) :=
  ⟨rfl, yt_no_chapters_never_calls_model noChapterTranscript
    (ModelCall.content (some [{ index := 0, title := "T" }])) rfl⟩

/-! ## C4 -/

/-- Model behaviors where the timestamps model call returns malformed JSON on
every attempt while the other tasks' calls parse successfully. -/
def malformedYtBehaviors : ModelBehaviors :=
  { summary := ModelCall.content (some sampleSummary)
    social := ModelCall.content (some sampleSocialPosts)
    titles := ModelCall.content (some sampleTitles)
    hashtags := ModelCall.content (some sampleHashtags)
    yt := ModelCall.content none }

/-- C4 counterexample: on a four-chapter transcript with the model call
returning malformed JSON on all attempts, the timestamps task does NOT raise
— the parse failure is caught and the task returns the AssemblyAI headlines —
and the run (other five tasks succeeding) ends with an empty error map, not
with one `youtubeTimestamps` entry. -/
theorem yt_malformed_json_not_raised :
    (generateYouTubeTimestamps fourChapterTranscript (ModelCall.content none)).result
        = Except.ok
          [ { timestamp := "00:00", description := "Intro" }
          , { timestamp := "01:00", description := "Topic A" }
          , { timestamp := "02:05", description := "Topic B" }
          , { timestamp := "1:06:40", description := "Wrap up" } ] ∧
    (podcastProcessorRun sampleProject fourChapterTranscript malformedYtBehaviors 200).proj.jobErrors
        = none := by
  exact ⟨rfl, rfl⟩

/-- Dropping the AI titles falls back to the AssemblyAI chapter headlines. -/
theorem ytStampsFrom_no_titles_desc (chs : List Chapter) :
    (ytStampsFrom chs []).map YtStamp.description = (chs.take 100).map Chapter.headline := by
  have h : ∀ l : List Chapter, l.enum.map (fun pr => pr.2.headline) = l.map Chapter.headline := by
    intro l
    calc l.enum.map (fun pr => pr.2.headline)
        = (l.enum.map Prod.snd).map Chapter.headline := by rw [List.map_map]; rfl
      _ = l.map Chapter.headline := by rw [List.enum_map_snd]
  simpa [ytStampsFrom, ytChapterRows, ytPickTitle, List.map_map, Function.comp] using
    h (chs.take 100)

/-- C4 amended: for every transcript with at least one chapter, if the model
call of the timestamps task returns malformed JSON on all attempts, the task
does not raise: it returns timestamps whose descriptions are the AssemblyAI
chapter headlines, and a run in which the other five tasks succeed ends
`completed` with an empty error map and all six artifact fields populated. -/
theorem yt_malformed_json_falls_back (p0 : Project) (t : Transcript)
    (mb : ModelBehaviors) (now : Nat)
    (hch : t.chapters ≠ []) (hyt : mb.yt = ModelCall.content none)
    (herr : p0.jobErrors = none) :
    (generateYouTubeTimestamps t mb.yt).result = Except.ok (ytStampsFrom t.chapters []) ∧
    ((ytStampsFrom t.chapters []).map YtStamp.description
        = (t.chapters.take 100).map Chapter.headline) ∧
    (podcastProcessorRun p0 t mb now).proj.jobErrors = none ∧
    (podcastProcessorRun p0 t mb now).proj.youtubeTimestamps
        = some (ytStampsFrom t.chapters []) ∧
    (podcastProcessorRun p0 t mb now).proj.status = RunStatus.completed ∧
    (podcastProcessorRun p0 t mb now).proj.keyMoments = some (generateKeyMoments t) ∧
    (podcastProcessorRun p0 t mb now).proj.summary
        = some (generateSummary mb.summary t) ∧
    (podcastProcessorRun p0 t mb now).proj.socialPosts
        = some (generateSocialPosts mb.social t) ∧
    (podcastProcessorRun p0 t mb now).proj.titles
        = some (generateTitles mb.titles t) ∧
    (podcastProcessorRun p0 t mb now).proj.hashtags
        = some (generateHashtags mb.hashtags t) := by
  have hne : t.chapters.isEmpty = false := by
    cases hc : t.chapters with
    | nil => exact absurd hc hch
    | cons a l => rfl
  refine ⟨?_, ytStampsFrom_no_titles_desc t.chapters, ?_, ?_, ?_, ?_, ?_, ?_, ?_, ?_⟩ <;>
    simp [podcastProcessorRun, podcastProcessor, runGenerationTasks,
          generateYouTubeTimestamps, hyt, hne, jobErrorsOf, errEntry,
          saveResultsToConvex, saveGeneratedContent, mergeField, Settled.toOption,
          updateProjectStatus, updateJobStatus, saveTranscript, saveJobErrors, herr]

/-- C4 amended witness: the four-chapter transcript with malformed JSON on the
timestamps model call. -/
theorem yt_malformed_json_falls_back_witness :
    fourChapterTranscript.chapters ≠ [] ∧
    malformedYtBehaviors.yt = ModelCall.content none ∧
    sampleProject.jobErrors = none ∧
    ((podcastProcessorRun sampleProject fourChapterTranscript malformedYtBehaviors 200).proj.status
        = RunStatus.completed ∧
      (podcastProcessorRun sampleProject fourChapterTranscript malformedYtBehaviors 200).proj.jobErrors
        = none) :=
  ⟨by simp [fourChapterTranscript], rfl, rfl,
    (yt_malformed_json_falls_back sampleProject fourChapterTranscript malformedYtBehaviors 200
        (by simp [fourChapterTranscript]) rfl rfl).2.2.2.2.1,
    (yt_malformed_json_falls_back sampleProject fourChapterTranscript malformedYtBehaviors 200
        (by simp [fourChapterTranscript]) rfl rfl).2.2.1⟩

/-! ## C6 -/

/-- C6: for every parsed model output, an over-length Twitter post (more than
280 code units) is returned as the first `280 - |marker|` code units of the
original followed by the fixed truncation marker — a length-280 result that
extends a prefix of the original — and is never rejected; an output of at
most 280 code units is returned unchanged. -/
theorem twitter_cap_truncates (sp : SocialPosts) (t : Transcript) :
    (280 < sp.twitter.length →
      (generateSocialPosts (ModelCall.content (some sp)) t).twitter
          = sp.twitter.take (280 - truncMarker.length) ++ truncMarker ∧
      (generateSocialPosts (ModelCall.content (some sp)) t).twitter.length = 280 ∧
      ∃ rest, sp.twitter = sp.twitter.take (280 - truncMarker.length) ++ rest) ∧
    (sp.twitter.length ≤ 280 →
      (generateSocialPosts (ModelCall.content (some sp)) t).twitter = sp.twitter) := by
  constructor
  · intro h
    refine ⟨?_, ?_, ⟨sp.twitter.drop 277, (List.take_append_drop 277 sp.twitter).symm⟩⟩
    · simp [generateSocialPosts, applyTwitterCap, capTwitter, truncMarker, h]
    · simp [generateSocialPosts, applyTwitterCap, capTwitter, truncMarker, h]
      omega
  · intro h
    simp [generateSocialPosts, applyTwitterCap, capTwitter, truncMarker]
    omega

/-- A social-posts object whose Twitter field has 300 code units. -/
def longTweetPosts : SocialPosts :=
  { sampleSocialPosts with twitter := List.replicate 300 'a' }

/-- C6 witness: a 300-code-unit Twitter post is truncated to 280 with the
marker, and the 11-code-unit sample post passes through unchanged. -/
theorem twitter_cap_truncates_witness :
    (280 < longTweetPosts.twitter.length ∧
      (generateSocialPosts (ModelCall.content (some longTweetPosts)) fourChapterTranscript).twitter
          = longTweetPosts.twitter.take (280 - truncMarker.length) ++ truncMarker) ∧
    (sampleSocialPosts.twitter.length ≤ 280 ∧
      (generateSocialPosts (ModelCall.content (some sampleSocialPosts)) fourChapterTranscript).twitter
          = sampleSocialPosts.twitter) :=
  ⟨⟨by simp [longTweetPosts, List.length_replicate],
    ((twitter_cap_truncates longTweetPosts fourChapterTranscript).1
        (by simp [longTweetPosts, List.length_replicate])).1⟩,
   ⟨by simp [sampleSocialPosts],
    (twitter_cap_truncates sampleSocialPosts fourChapterTranscript).2
        (by simp [sampleSocialPosts])⟩⟩

/-! ## C7 -/

/-- A project already in the terminal `completed` state. -/
def completedProject : Project :=
  { sampleProject with status := RunStatus.completed, completedAt := some 150 }

/-- C7 counterexample: the mutations carry no terminal-state guard.  A
job-status update applied to a `completed` project changes the record (even
with an unchanged `updatedAt`), and `recordError` moves a `completed` project
to `failed`. -/
theorem terminal_runs_are_mutable :
    updateJobStatus completedProject JobKey.titles JobState.running
        completedProject.updatedAt ≠ completedProject ∧
    (recordError completedProject "late failure" "workflow" none 300).status
        = RunStatus.failed ∧
    (recordError completedProject "late failure" "workflow" none 300).status
        ≠ completedProject.status := by
  refine ⟨?_, rfl, by simp [recordError, completedProject, sampleProject]⟩
  intro h
  have h2 := congrArg (fun p => p.jobStatus JobKey.titles) h
  simp [updateJobStatus, completedProject, sampleProject] at h2

/-- C7 amended: no project mutation checks for a terminal status — applied to
a run whose status is `completed` or `failed`, a job-status update with a new
state still changes the record (and writes the new state), and `recordError`
still overwrites status and error. -/
theorem mutations_have_no_terminal_guard (p : Project) (j : JobKey) (s : JobState)
    (m st : String) (d : Option String) (now : Nat)
    (_hterm : p.status = RunStatus.completed ∨ p.status = RunStatus.failed)
    (hne : p.jobStatus j ≠ s) :
    updateJobStatus p j s now ≠ p ∧
    (updateJobStatus p j s now).jobStatus j = s ∧
    (recordError p m st d now).status = RunStatus.failed ∧
    (recordError p m st d now).error
        = some { message := m, step := st, timestamp := now, details := d } := by
  refine ⟨?_, by simp [updateJobStatus], rfl, rfl⟩
  intro h
  have h2 := congrArg (fun q => q.jobStatus j) h
  simp [updateJobStatus] at h2
  exact hne h2.symm

/-- C7 amended witness: the concrete completed project mutated by a
job-status update. -/
theorem mutations_have_no_terminal_guard_witness :
    (completedProject.status = RunStatus.completed ∨
      completedProject.status = RunStatus.failed) ∧
    completedProject.jobStatus JobKey.titles ≠ JobState.running ∧
    updateJobStatus completedProject JobKey.titles JobState.running 300 ≠ completedProject :=
  ⟨Or.inl rfl, by decide,
    (mutations_have_no_terminal_guard completedProject JobKey.titles JobState.running
        "m" "w" none 300 (Or.inl rfl) (by decide)).1⟩

/-! ## C3 -/

/-- Names of the six generation tasks, as used in `generationNames`. -/
inductive TaskName
  | keyMoments
  | summary
  | socialPosts
  | titles
  | hashtags
  | youtubeTimestamps
deriving DecidableEq

/-- The string key a task contributes to the error map. -/
def taskNameStr : TaskName → String
  | .keyMoments => "keyMoments"
  | .summary => "summary"
  | .socialPosts => "socialPosts"
  | .titles => "titles"
  | .hashtags => "hashtags"
  | .youtubeTimestamps => "youtubeTimestamps"

/-- One concrete artifact per task, for building settled outcomes. -/
structure ArtifactVals where
  keyMoments : List KeyMoment
  summary : Summary
  socialPosts : SocialPosts
  titles : Titles
  hashtags : Hashtags
  youtubeTimestamps : List YtStamp

/-- All six tasks fulfilled with the given artifacts. -/
def allFulfilled (v : ArtifactVals) : GenResults :=
  { keyMoments := Settled.fulfilled v.keyMoments
    summary := Settled.fulfilled v.summary
    socialPosts := Settled.fulfilled v.socialPosts
    titles := Settled.fulfilled v.titles
    hashtags := Settled.fulfilled v.hashtags
    youtubeTimestamps := Settled.fulfilled v.youtubeTimestamps }

/-- Five tasks fulfilled, the named one rejected with the given reason. -/
def rejectOne (n : TaskName) (reason : String) (v : ArtifactVals) : GenResults :=
  match n with
  | .keyMoments => { allFulfilled v with keyMoments := Settled.rejected reason }
  | .summary => { allFulfilled v with summary := Settled.rejected reason }
  | .socialPosts => { allFulfilled v with socialPosts := Settled.rejected reason }
  | .titles => { allFulfilled v with titles := Settled.rejected reason }
  | .hashtags => { allFulfilled v with hashtags := Settled.rejected reason }
  | .youtubeTimestamps => { allFulfilled v with youtubeTimestamps := Settled.rejected reason }

/-- A project that holds no generated artifact yet. -/
def noArtifacts (p : Project) : Prop :=
  p.keyMoments = none ∧ p.summary = none ∧ p.socialPosts = none ∧
  p.titles = none ∧ p.hashtags = none ∧ p.youtubeTimestamps = none

/-- The named task's artifact field of the record is unset. -/
def slotUnset (p : Project) : TaskName → Prop
  | .keyMoments => p.keyMoments = none
  | .summary => p.summary = none
  | .socialPosts => p.socialPosts = none
  | .titles => p.titles = none
  | .hashtags => p.hashtags = none
  | .youtubeTimestamps => p.youtubeTimestamps = none

/-- The named task's artifact field of the record holds the given value. -/
def slotSaved (p : Project) (v : ArtifactVals) : TaskName → Prop
  | .keyMoments => p.keyMoments = some v.keyMoments
  | .summary => p.summary = some v.summary
  | .socialPosts => p.socialPosts = some v.socialPosts
  | .titles => p.titles = some v.titles
  | .hashtags => p.hashtags = some v.hashtags
  | .youtubeTimestamps => p.youtubeTimestamps = some v.youtubeTimestamps

/-- C3: starting from a project with no artifacts, when exactly one of the
six tasks rejects (on every attempt, i.e. its settled outcome is a rejection)
and the other five succeed, the run ends `completed`, the five succeeded
artifacts are persisted, the failing task's artifact field stays unset, and
the persisted error map holds exactly the one task-name-to-message entry. -/
theorem isolated_single_failure (n : TaskName) (reason : String) (v : ArtifactVals)
    (p0 : Project) (t : Transcript) (now : Nat) (h0 : noArtifacts p0) :
    (podcastProcessor p0 (Except.ok t) (rejectOne n reason v) now).proj.status
        = RunStatus.completed ∧
    (podcastProcessor p0 (Except.ok t) (rejectOne n reason v) now).proj.jobErrors
        = some [(taskNameStr n, reason)] ∧
    slotUnset (podcastProcessor p0 (Except.ok t) (rejectOne n reason v) now).proj n ∧
    (∀ m, m ≠ n →
      slotSaved (podcastProcessor p0 (Except.ok t) (rejectOne n reason v) now).proj v m) := by
  obtain ⟨h1, h2, h3, h4, h5, h6⟩ := h0
  cases n <;>
    refine ⟨by simp [podcastProcessor, rejectOne, allFulfilled, jobErrorsOf, errEntry,
        saveJobErrors, updateJobStatus, updateProjectStatus, saveTranscript,
        saveResultsToConvex, saveGeneratedContent, mergeField, Settled.toOption],
      by simp [podcastProcessor, rejectOne, allFulfilled, jobErrorsOf, errEntry,
        taskNameStr, saveJobErrors, updateJobStatus, updateProjectStatus, saveTranscript,
        saveResultsToConvex, saveGeneratedContent, mergeField, Settled.toOption],
      by simp [slotUnset, podcastProcessor, rejectOne, allFulfilled, jobErrorsOf, errEntry,
        saveJobErrors, updateJobStatus, updateProjectStatus, saveTranscript,
        saveResultsToConvex, saveGeneratedContent, mergeField, Settled.toOption,
        h1, h2, h3, h4, h5, h6],
      ?_⟩ <;>
  · intro m hm
    cases m <;>
      first
        | exact absurd rfl hm
        | simp [slotSaved, podcastProcessor, rejectOne, allFulfilled, jobErrorsOf, errEntry,
            saveJobErrors, updateJobStatus, updateProjectStatus, saveTranscript,
            saveResultsToConvex, saveGeneratedContent, mergeField, Settled.toOption]

/-- Concrete artifacts for the C3 witness. -/
def sampleVals : ArtifactVals :=
  { keyMoments := sampleKeyMoments
    summary := sampleSummary
    socialPosts := sampleSocialPosts
    titles := sampleTitles
    hashtags := sampleHashtags
    youtubeTimestamps := sampleYtStamps }

/-- C3 witness: the fresh sample project with the titles task rejecting. -/
theorem isolated_single_failure_witness :
    noArtifacts sampleProject ∧
    ((podcastProcessor sampleProject (Except.ok fourChapterTranscript)
          (rejectOne TaskName.titles "rate limited" sampleVals) 200).proj.status
        = RunStatus.completed ∧
      (podcastProcessor sampleProject (Except.ok fourChapterTranscript)
          (rejectOne TaskName.titles "rate limited" sampleVals) 200).proj.jobErrors
        = some [("titles", "rate limited")]) :=
  ⟨⟨rfl, rfl, rfl, rfl, rfl, rfl⟩,
    (isolated_single_failure TaskName.titles "rate limited" sampleVals sampleProject
        fourChapterTranscript 200 ⟨rfl, rfl, rfl, rfl, rfl, rfl⟩).1,
    (isolated_single_failure TaskName.titles "rate limited" sampleVals sampleProject
        fourChapterTranscript 200 ⟨rfl, rfl, rfl, rfl, rfl, rfl⟩).2.1⟩

/-! ## C8 -/

/-- C8: `saveGeneratedContent` is a field-level merge-patch — every provided
artifact argument is written, every omitted one leaves its field untouched,
and every non-artifact field except `updatedAt` is preserved; and
`updateJobStatus` rewrites exactly the named job's state, preserving every
other job's state and the rest of the record. -/
theorem merge_patch_frame (p : Project) (c : ContentArgs) (now : Nat)
    (j : JobKey) (s : JobState) :
    (c.keyMoments = none → (saveGeneratedContent p c now).keyMoments = p.keyMoments) ∧
    (∀ v, c.keyMoments = some v → (saveGeneratedContent p c now).keyMoments = some v) ∧
    (c.summary = none → (saveGeneratedContent p c now).summary = p.summary) ∧
    (∀ v, c.summary = some v → (saveGeneratedContent p c now).summary = some v) ∧
    (c.socialPosts = none → (saveGeneratedContent p c now).socialPosts = p.socialPosts) ∧
    (∀ v, c.socialPosts = some v → (saveGeneratedContent p c now).socialPosts = some v) ∧
    (c.titles = none → (saveGeneratedContent p c now).titles = p.titles) ∧
    (∀ v, c.titles = some v → (saveGeneratedContent p c now).titles = some v) ∧
    (c.hashtags = none → (saveGeneratedContent p c now).hashtags = p.hashtags) ∧
    (∀ v, c.hashtags = some v → (saveGeneratedContent p c now).hashtags = some v) ∧
    (c.youtubeTimestamps = none →
      (saveGeneratedContent p c now).youtubeTimestamps = p.youtubeTimestamps) ∧
    (∀ v, c.youtubeTimestamps = some v →
      (saveGeneratedContent p c now).youtubeTimestamps = some v) ∧
    (saveGeneratedContent p c now).transcript = p.transcript ∧
    (saveGeneratedContent p c now).userId = p.userId ∧
    (saveGeneratedContent p c now).status = p.status ∧
    (saveGeneratedContent p c now).error = p.error ∧
    (saveGeneratedContent p c now).jobStatus = p.jobStatus ∧
    (saveGeneratedContent p c now).jobErrors = p.jobErrors ∧
    (saveGeneratedContent p c now).inputUrl = p.inputUrl ∧
    (saveGeneratedContent p c now).fileName = p.fileName ∧
    (saveGeneratedContent p c now).fileSize = p.fileSize ∧
    (saveGeneratedContent p c now).fileFormat = p.fileFormat ∧
    (saveGeneratedContent p c now).mimeType = p.mimeType ∧
    (saveGeneratedContent p c now).createdAt = p.createdAt ∧
    (saveGeneratedContent p c now).completedAt = p.completedAt ∧
    (saveGeneratedContent p c now).updatedAt = now ∧
    (updateJobStatus p j s now).jobStatus j = s ∧
    (∀ k, k ≠ j → (updateJobStatus p j s now).jobStatus k = p.jobStatus k) ∧
    (updateJobStatus p j s now).status = p.status ∧
    (updateJobStatus p j s now).error = p.error ∧
    (updateJobStatus p j s now).transcript = p.transcript ∧
    (updateJobStatus p j s now).keyMoments = p.keyMoments ∧
    (updateJobStatus p j s now).summary = p.summary ∧
    (updateJobStatus p j s now).socialPosts = p.socialPosts ∧
    (updateJobStatus p j s now).titles = p.titles ∧
    (updateJobStatus p j s now).hashtags = p.hashtags ∧
    (updateJobStatus p j s now).youtubeTimestamps = p.youtubeTimestamps ∧
    (updateJobStatus p j s now).jobErrors = p.jobErrors ∧
    (updateJobStatus p j s now).completedAt = p.completedAt := by
  repeat' apply And.intro
  all_goals intros
  all_goals simp_all [saveGeneratedContent, mergeField, updateJobStatus]

/-- Arguments providing only the summary artifact. -/
def sampleContentArgs : ContentArgs :=
  { keyMoments := none, summary := some sampleSummary, socialPosts := none
    titles := none, hashtags := none, youtubeTimestamps := none }

/-- C8 witness: a merge-patch that provides only the summary leaves the
key-moments field untouched and writes the summary. -/
theorem merge_patch_frame_witness :
    sampleContentArgs.keyMoments = none ∧
    (saveGeneratedContent sampleProject sampleContentArgs 500).keyMoments
        = sampleProject.keyMoments ∧
    sampleContentArgs.summary = some sampleSummary ∧
    (saveGeneratedContent sampleProject sampleContentArgs 500).summary
        = some sampleSummary :=
  ⟨rfl,
    (merge_patch_frame sampleProject sampleContentArgs 500 JobKey.captions
        JobState.skipped).1 rfl,
    rfl,
    (merge_patch_frame sampleProject sampleContentArgs 500 JobKey.captions
        JobState.skipped).2.2.2.1 sampleSummary rfl⟩

/-! ## C9 -/

/-- Channel names embed the project id injectively: a channel derived from
one project id never equals the channel derived from another. -/
theorem projectChannel_inj (a b : String) (h : projectChannel a = projectChannel b) :
    a = b := by
  unfold projectChannel at h
  have hd := congrArg String.data h
  simp [String.data_append] at hd
  exact String.ext hd

/-- C9: the token endpoint issues a token only to the authenticated owner of
an existing requested project, and every issued token is scoped to exactly
the channel derived from that project id (which determines the id uniquely)
and the four fixed progress topics; an unauthenticated caller, a missing
`projectId`, an unknown project, and a non-owner all get an error and no
token. -/
theorem token_scoped_to_owner (auth : AuthState) (pidp : Option String)
    (getProject : String → Option Project) :
    (∀ tok, tokenRouteGET auth pidp getProject = RouteResult.ok tok →
      ∃ uid pid proj,
        auth = AuthState.signedIn uid ∧
        pidp = some pid ∧
        getProject pid = some proj ∧
        proj.userId = uid ∧
        tok.channel = projectChannel pid ∧
        tok.topics = realtimeTopics ∧
        ∀ other, projectChannel other = projectChannel pid → other = pid) ∧
    (auth = AuthState.unauthenticated →
      tokenRouteGET auth pidp getProject = RouteResult.err "Unauthorized" 401) ∧
    (∀ uid, auth = AuthState.signedIn uid → pidp = none →
      tokenRouteGET auth pidp getProject = RouteResult.err "Missing projectId" 400) ∧
    (∀ uid pid, auth = AuthState.signedIn uid → pidp = some pid →
      getProject pid = none →
      tokenRouteGET auth pidp getProject = RouteResult.err "Project not found" 404) ∧
    (∀ uid pid proj, auth = AuthState.signedIn uid → pidp = some pid →
      getProject pid = some proj → proj.userId ≠ uid →
      tokenRouteGET auth pidp getProject = RouteResult.err "Forbidden" 403) := by
  refine ⟨?_, ?_, ?_, ?_, ?_⟩
  · intro tok h
    cases auth with
    | unauthenticated => simp [tokenRouteGET] at h
    | signedIn uid =>
      cases pidp with
      | none => simp [tokenRouteGET] at h
      | some pid =>
        cases hp : getProject pid with
        | none => simp [tokenRouteGET, hp] at h
        | some proj =>
          by_cases howner : proj.userId = uid
          · simp [tokenRouteGET, hp, howner] at h
            refine ⟨uid, pid, proj, rfl, rfl, hp, howner, ?_, ?_,
              fun other ho => projectChannel_inj other pid ho⟩
            · rw [← h]
            · rw [← h]
          · simp [tokenRouteGET, hp, howner] at h
  · intro ha
    subst ha
    rfl
  · intro uid ha hp
    subst ha
    subst hp
    rfl
  · intro uid pid ha hpid hp
    subst ha
    subst hpid
    simp [tokenRouteGET, hp]
  · intro uid pid proj ha hpid hp howner
    subst ha
    subst hpid
    simp [tokenRouteGET, hp, howner]

/-- A point-read over a one-project database. -/
def sampleGetProject : String → Option Project :=
  fun s => if s = "proj_1" then some sampleProject else none

/-- C9 witness: the owner of `proj_1` receives a token scoped to
`project:proj_1` and the four fixed topics. -/
theorem token_scoped_to_owner_witness :
    ∃ uid pid proj,
      AuthState.signedIn "user_1" = AuthState.signedIn uid ∧
      (some "proj_1" : Option String) = some pid ∧
      sampleGetProject pid = some proj ∧
      proj.userId = uid ∧
      (TokenScope.mk (projectChannel "proj_1") realtimeTopics).channel
          = projectChannel pid ∧
      (TokenScope.mk (projectChannel "proj_1") realtimeTopics).topics
          = realtimeTopics ∧
      ∀ other, projectChannel other = projectChannel pid → other = pid :=
  (token_scoped_to_owner (AuthState.signedIn "user_1") (some "proj_1")
      sampleGetProject).1
    { channel := projectChannel "proj_1", topics := realtimeTopics } rfl

/-! ## C10 -/

/-- C10 (implicit): the summary, social-posts, titles and hashtags tasks never
raise — for a throwing model call, a malformed (unparseable/invalid) response
and a missing content string alike, each returns its deterministic catch or
no-content fallback artifact — and consequently an entry of the run's error
map can only be keyed by one of the two remaining tasks (in this embedding in
fact only `youtubeTimestamps`, since `generateKeyMoments` has no failure
path). -/
theorem robust_tasks_never_raise (t : Transcript) (mb : ModelBehaviors) (m : String) :
    generateSummary (ModelCall.throwErr m) t = summaryErrFallback ∧
    generateSummary (ModelCall.content none) t = summaryErrFallback ∧
    generateSummary ModelCall.noContent t = summaryNoContentFallback t ∧
    generateSocialPosts (ModelCall.throwErr m) t = socialErrFallback ∧
    generateSocialPosts (ModelCall.content none) t = socialErrFallback ∧
    generateSocialPosts ModelCall.noContent t = applyTwitterCap socialNoContentFallback ∧
    generateTitles (ModelCall.throwErr m) t = titlesErrFallback ∧
    generateTitles (ModelCall.content none) t = titlesErrFallback ∧
    generateTitles ModelCall.noContent t = titlesNoContentFallback ∧
    generateHashtags (ModelCall.throwErr m) t = hashtagsErrFallback ∧
    generateHashtags (ModelCall.content none) t = hashtagsErrFallback ∧
    generateHashtags ModelCall.noContent t = hashtagsNoContentFallback ∧
    (∀ k e, (k, e) ∈ jobErrorsOf (runGenerationTasks t mb) →
      k = "keyMoments" ∨ k = "youtubeTimestamps") := by
  refine ⟨rfl, rfl, rfl, rfl, rfl, rfl, rfl, rfl, rfl, rfl, rfl, rfl, ?_⟩
  intro k e hk
  cases hyt : (generateYouTubeTimestamps t mb.yt).result with
  | ok v =>
    simp [jobErrorsOf, runGenerationTasks, errEntry, hyt] at hk
  | error err =>
    simp [jobErrorsOf, runGenerationTasks, errEntry, hyt] at hk
    exact Or.inr hk.1

/-- Behaviors where the timestamps model call throws on every attempt. -/
def throwYtBehaviors : ModelBehaviors :=
  { malformedYtBehaviors with yt := ModelCall.throwErr "boom" }

/-- C10 witness: with the timestamps model call throwing, the one error-map
entry is keyed `youtubeTimestamps`. -/
theorem robust_tasks_never_raise_witness :
    ("youtubeTimestamps", "boom")
        ∈ jobErrorsOf (runGenerationTasks fourChapterTranscript throwYtBehaviors) ∧
    ("youtubeTimestamps" = "keyMoments" ∨ "youtubeTimestamps" = "youtubeTimestamps") :=
  ⟨by simp [jobErrorsOf, runGenerationTasks, errEntry, generateYouTubeTimestamps,
      throwYtBehaviors, malformedYtBehaviors, fourChapterTranscript],
    (robust_tasks_never_raise fourChapterTranscript throwYtBehaviors
        "boom").2.2.2.2.2.2.2.2.2.2.2.2 "youtubeTimestamps" "boom"
      (by simp [jobErrorsOf, runGenerationTasks, errEntry, generateYouTubeTimestamps,
        throwYtBehaviors, malformedYtBehaviors, fourChapterTranscript])⟩

end Podcast
